import Mathlib

/-!
Shallow embedding of the Payment Orchestration & Reliable Delivery subsystem
of `arch-hexagonal-postgresql-fast`.

Source files embedded:
  * `domain/value_objects/amount.py`              (`Amount`)
  * `domain/value_objects/transaction_status.py`  (`TransactionStatus`)
  * `domain/entities/payment.py`                  (`Payment`)
  * `domain/entities/transaction.py`              (`Transaction`)
  * `application/ports/outbox_repository.py`      (`OutboxEvent`)
  * `application/use_cases/process_payment.py`    (`ProcessPayment.execute`)
  * `application/use_cases/refund_payment.py`     (`RefundPayment.execute`)
  * `application/services/outbox_publisher.py`    (`OutboxPublisherService`)

Python `Decimal` is modelled by `ℚ` (both are exact arithmetic; every decimal
literal appearing in the claims is a rational). `datetime` values are modelled
as natural-number timestamps passed explicitly where the source calls
`datetime.now(UTC)`; `datetime.isoformat` followed by `fromisoformat` is the
identity on aware datetimes and is modelled as the identity. Raising an
exception is modelled with `Except`: each method returns its result together
with the state as it stands at the `raise` statement, mirroring the source's
statement order, so partial mutation (or its absence) is represented
faithfully.
-/

namespace ArchHex

/-- Domain exceptions from `domain/exceptions.py`, plus `ValueError` and the
provider-raised errors that can cross the use-case boundary. -/
inductive Err where
  | invalidAmount (msg : String)
  | paymentNotFound (msg : String)
  | invalidPaymentState (msg : String)
  | refundExceedsOriginal (msg : String)
  | valueError (msg : String)
  | providerError (msg : String)
  | storeError (msg : String)
  deriving Repr, DecidableEq

/-- `str(e)` on a caught exception, used for `error_message` fields. -/
def Err.text : Err → String
  | .invalidAmount m => m
  | .paymentNotFound m => m
  | .invalidPaymentState m => m
  | .refundExceedsOriginal m => m
  | .valueError m => m
  | .providerError m => m
  | .storeError m => m

/-! ## Amount (`domain/value_objects/amount.py`) -/

/-- Immutable money amount with currency. -/
structure Amount where
  value : ℚ
  currency : String
  deriving Repr, DecidableEq

/-- `Amount.__post_init__`: constructing an `Amount` validates
`value ≥ 0` and that the currency is a nonempty 3-letter code. -/
def Amount.mk? (value : ℚ) (currency : String) : Except Err Amount :=
  if value < 0 then
    .error (.invalidAmount "Amount cannot be negative")
  else if currency = "" ∨ currency.length ≠ 3 then
    .error (.invalidAmount "Currency must be 3-letter ISO code")
  else
    .ok ⟨value, currency⟩

/-- An `Amount` value that could have been produced by the constructor. -/
def Amount.WF (a : Amount) : Prop :=
  0 ≤ a.value ∧ a.currency ≠ "" ∧ a.currency.length = 3

instance (a : Amount) : Decidable a.WF := by
  unfold Amount.WF; infer_instance

/-- `Amount.__add__`: requires equal currency, result re-validated by the
constructor. -/
def Amount.add (a b : Amount) : Except Err Amount :=
  if a.currency ≠ b.currency then
    .error (.invalidAmount "Cannot add amounts with different currencies")
  else
    Amount.mk? (a.value + b.value) a.currency

/-- `Amount.__sub__`: requires equal currency; rejects a negative result
before constructing. -/
def Amount.sub (a b : Amount) : Except Err Amount :=
  if a.currency ≠ b.currency then
    .error (.invalidAmount "Cannot subtract amounts with different currencies")
  else if a.value - b.value < 0 then
    .error (.invalidAmount "Subtraction would result in negative amount")
  else
    Amount.mk? (a.value - b.value) a.currency

/-- `Amount.zero(currency)`. -/
def Amount.zero (currency : String := "USD") : Amount :=
  ⟨0, currency⟩

/-! ## TransactionStatus (`domain/value_objects/transaction_status.py`) -/

inductive TransactionStatus where
  | pending | processing | completed | failed
  | refunded | partially_refunded | cancelled
  deriving Repr, DecidableEq

/-- The enum's string value. -/
def TransactionStatus.value : TransactionStatus → String
  | .pending => "pending"
  | .processing => "processing"
  | .completed => "completed"
  | .failed => "failed"
  | .refunded => "refunded"
  | .partially_refunded => "partially_refunded"
  | .cancelled => "cancelled"

/-- `TransactionStatus.is_terminal`. -/
def TransactionStatus.is_terminal (s : TransactionStatus) : Bool :=
  s = .completed ∨ s = .failed ∨ s = .refunded ∨ s = .cancelled

/-- `TransactionStatus.can_refund`. -/
def TransactionStatus.can_refund (s : TransactionStatus) : Bool :=
  s = .completed ∨ s = .partially_refunded

/-! ## Payment (`domain/entities/payment.py`) -/

structure Payment where
  id : String
  customer_id : String
  amount : Amount
  payment_method : String
  provider : String
  status : TransactionStatus
  provider_transaction_id : Option String
  refunded_amount : Amount
  created_at : ℕ
  updated_at : ℕ
  metadata : List (String × String)
  deriving Repr, DecidableEq

/-- `Payment.__post_init__`: requires nonempty `id`, `customer_id`,
`provider`; if `refunded_amount.currency` differs from `amount.currency` the
refunded amount is replaced by `Amount.zero(currency=amount.currency)`. -/
def Payment.mk? (id customer_id : String) (amount : Amount)
    (payment_method provider : String)
    (status : TransactionStatus := .pending)
    (provider_transaction_id : Option String := none)
    (refunded_amount : Amount := Amount.zero)
    (created_at : ℕ := 0) (updated_at : ℕ := 0)
    (metadata : List (String × String) := []) : Except Err Payment :=
  if id = "" then .error (.valueError "Payment ID is required")
  else if customer_id = "" then .error (.valueError "Customer ID is required")
  else if provider = "" then .error (.valueError "Payment provider is required")
  else
    let refunded :=
      if refunded_amount.currency ≠ amount.currency then
        Amount.zero amount.currency
      else refunded_amount
    .ok ⟨id, customer_id, amount, payment_method, provider, status,
         provider_transaction_id, refunded, created_at, updated_at, metadata⟩

/-- `Payment.mark_processing(provider_transaction_id)`: the pair returned is
(result, the payment as it stands when the method returns or raises). -/
def Payment.mark_processing (p : Payment) (provider_transaction_id : String)
    (now : ℕ) : Except Err Unit × Payment :=
  if p.status ≠ .pending then
    (.error (.invalidPaymentState
      ("Cannot mark as processing: current status is " ++ p.status.value)), p)
  else
    (.ok (), { p with status := .processing,
                      provider_transaction_id := some provider_transaction_id,
                      updated_at := now })

/-- `Payment.mark_completed()`. -/
def Payment.mark_completed (p : Payment) (now : ℕ) :
    Except Err Unit × Payment :=
  if p.status ≠ .processing then
    (.error (.invalidPaymentState
      ("Cannot mark as completed: current status is " ++ p.status.value)), p)
  else
    (.ok (), { p with status := .completed, updated_at := now })

/-- `Payment.mark_failed()`. -/
def Payment.mark_failed (p : Payment) (now : ℕ) : Except Err Unit × Payment :=
  if p.status = .completed ∨ p.status = .refunded then
    (.error (.invalidPaymentState
      ("Cannot mark as failed: current status is " ++ p.status.value)), p)
  else
    (.ok (), { p with status := .failed, updated_at := now })

/-- `Payment.refund(refund_amount)`: check refundability, compute
`total_refunded = refunded_amount + refund_amount` (which itself validates the
currencies), reject when `total_refunded.value > amount.value`, then mutate. -/
def Payment.refund (p : Payment) (refund_amount : Amount) (now : ℕ) :
    Except Err Unit × Payment :=
  if ¬ p.status.can_refund then
    (.error (.invalidPaymentState
      ("Cannot refund payment with status " ++ p.status.value)), p)
  else
    match p.refunded_amount.add refund_amount with
    | .error e => (.error e, p)
    | .ok total_refunded =>
      if total_refunded.value > p.amount.value then
        (.error (.refundExceedsOriginal
          "Refund amount exceeds original payment"), p)
      else
        let p := { p with refunded_amount := total_refunded }
        let p :=
          if p.refunded_amount.value = p.amount.value then
            { p with status := .refunded }
          else
            { p with status := .partially_refunded }
        (.ok (), { p with updated_at := now })

/-- `Payment.can_be_refunded()`. -/
def Payment.can_be_refunded (p : Payment) : Bool :=
  p.status.can_refund

/-- `Payment.remaining_refundable_amount()`. -/
def Payment.remaining_refundable_amount (p : Payment) : Except Err Amount :=
  if ¬ p.can_be_refunded then .ok (Amount.zero p.amount.currency)
  else p.amount.sub p.refunded_amount

/-! ## Transaction (`domain/entities/transaction.py`) -/

structure Transaction where
  id : String
  payment_id : String
  amount : Amount
  transaction_type : String
  status : TransactionStatus
  provider : String
  provider_transaction_id : Option String
  error_message : Option String
  created_at : ℕ
  deriving Repr, DecidableEq

/-- `Transaction.__post_init__`: requires nonempty `id`, `payment_id` and
`provider`, and `transaction_type ∈ {"charge", "refund"}`, in the source's
check order. -/
def Transaction.mk? (id payment_id : String) (amount : Amount)
    (transaction_type : String) (status : TransactionStatus)
    (provider : String) (provider_transaction_id : Option String)
    (error_message : Option String) (created_at : ℕ) :
    Except Err Transaction :=
  if id = "" then .error (.valueError "Transaction ID is required")
  else if payment_id = "" then .error (.valueError "Payment ID is required")
  else if ¬ (transaction_type = "charge" ∨ transaction_type = "refund") then
    .error (.valueError ("Invalid transaction type: " ++ transaction_type))
  else if provider = "" then .error (.valueError "Provider is required")
  else
    .ok ⟨id, payment_id, amount, transaction_type, status, provider,
      provider_transaction_id, error_message, created_at⟩

/-! ## OutboxEvent (`application/ports/outbox_repository.py`) -/

/-- Event ids are `uuid4()` values; they are modelled as naturals drawn from a
counter in the store, which preserves their freshness. Payload dictionaries
hold string values in every call site embedded here. -/
structure OutboxEvent where
  id : ℕ
  aggregate_type : String
  aggregate_id : String
  event_type : String
  payload : List (String × String)
  created_at : ℕ
  published_at : Option ℕ
  attempts : ℕ
  last_error : Option String
  deriving Repr, DecidableEq

/-! ## The shared mutable resources behind the ports

`PaymentRepository.save` / `TransactionRepository.save` upsert by id;
the idempotency store maps a key to an optional cached result
(`is_duplicate` = key present, `get_result` = the stored value, which the
port allows to be `None`). The event-publisher port is recorded as a list of
`(method, argument)` calls so that claims about which port carried an event
can be stated. Gateway charge calls are counted. -/

/-- Cached `ProcessPaymentResponse` dict; `created_at` survives the
isoformat round-trip unchanged. -/
structure PPResponse where
  payment_id : String
  status : String
  provider_transaction_id : Option String
  created_at : ℕ
  deriving Repr, DecidableEq

/-- Cached `RefundPaymentResponse` dict. -/
structure RPResponse where
  payment_id : String
  refund_amount : String
  status : String
  refund_transaction_id : String
  created_at : ℕ
  deriving Repr, DecidableEq

inductive CachedResult where
  | process (r : PPResponse)
  | refundR (r : RPResponse)
  deriving Repr, DecidableEq

structure Store where
  payments : List Payment
  transactions : List Transaction
  outbox : List OutboxEvent
  nextEventId : ℕ
  idem : List (String × Option CachedResult)
  chargeCalls : ℕ
  refundCalls : ℕ
  publisherCalls : List (String × String)
  deriving Repr, DecidableEq

def Store.savePayment (st : Store) (p : Payment) : Store :=
  { st with payments :=
      if st.payments.any (·.id = p.id) then
        st.payments.map (fun q => if q.id = p.id then p else q)
      else p :: st.payments }

def Store.saveTransaction (st : Store) (t : Transaction) : Store :=
  { st with transactions :=
      if st.transactions.any (·.id = t.id) then
        st.transactions.map (fun u => if u.id = t.id then t else u)
      else t :: st.transactions }

/-- `ProcessPayment._save_event_to_outbox` / `OutboxRepository.save`:
a fresh event with `published_at=None`, `attempts=0`, `last_error=None`. -/
def Store.saveOutboxEvent (st : Store) (aggregate_type aggregate_id event_type :
    String) (payload : List (String × String)) (now : ℕ) : Store :=
  { st with
      outbox := st.outbox ++
        [⟨st.nextEventId, aggregate_type, aggregate_id, event_type, payload,
          now, none, 0, none⟩],
      nextEventId := st.nextEventId + 1 }

/-- `IdempotencyStore.is_duplicate`. -/
def Store.is_duplicate (st : Store) (key : String) : Bool :=
  st.idem.any (·.1 = key)

/-- `IdempotencyStore.get_result`. -/
def Store.get_result (st : Store) (key : String) : Option CachedResult :=
  (st.idem.find? (·.1 = key)).bind (·.2)

/-- `IdempotencyStore.store_result`. -/
def Store.store_result (st : Store) (key : String) (r : CachedResult) : Store :=
  { st with idem := (key, some r) ::
      st.idem.filter (fun kv => ¬ kv.1 = key) }

/-! ## ProcessPayment (`application/use_cases/process_payment.py`) -/

structure ProcessPaymentRequest where
  customer_id : String
  amount : Amount
  payment_method : String
  payment_method_token : String
  idempotency_key : String
  metadata : List (String × String)
  deriving Repr, DecidableEq

/-- A string rendering of a rational, standing in for `str(Decimal)`; the
claims never inspect these payload entries. -/
def ratStr (q : ℚ) : String := toString q.num ++ "/" ++ toString q.den

/-- Environment of one `ProcessPayment.execute` run: the outcome of the single
`Gateway.charge` call this run can make, the outcome of the single
`store_result` call, the `uuid4()` draws, and the clock. Repository saves and
outbox saves are modelled as infallible state updates. -/
structure PPEnv where
  chargeOutcome : Except Err String
  storeOutcome : Except Err Unit
  paymentUuid : String
  chargeTxUuid : String
  failedTxUuid : String
  providerName : String
  now : ℕ
  deriving Repr

/-- The `except Exception` branch of `ProcessPayment.execute`: `mark_failed`
(whose own `InvalidPaymentStateError` would replace the caught exception),
save, append the FAILED charge `Transaction`, write the `PaymentFailed`
outbox event, re-raise the original exception. -/
def ProcessPayment.handleFailure (env : PPEnv) (req : ProcessPaymentRequest)
    (e : Err) (payment : Payment) (st : Store) :
    Except Err PPResponse × Store :=
  match payment.mark_failed env.now with
  | (.error e2, _) => (.error e2, st)
  | (.ok _, payment) =>
    let st := st.savePayment payment
    let failed_tx : Transaction :=
      ⟨env.failedTxUuid, payment.id, req.amount, "charge", .failed,
       env.providerName, none, some e.text, env.now⟩
    let st := st.saveTransaction failed_tx
    let st := st.saveOutboxEvent "Payment" payment.id "PaymentFailed"
      [("payment_id", payment.id), ("customer_id", payment.customer_id),
       ("amount", ratStr payment.amount.value),
       ("currency", payment.amount.currency), ("error", e.text),
       ("status", payment.status.value)] env.now
    (.error e, st)

/-- The `try` block of `ProcessPayment.execute`, given the freshly created
PENDING payment. On an exception it yields the exception, the payment variable
as mutated so far, and the store as persisted so far. -/
def ProcessPayment.tryBlock (env : PPEnv) (req : ProcessPaymentRequest)
    (payment : Payment) (st : Store) :
    Except (Err × Payment × Store) (PPResponse × Store) :=
  let st := { st with chargeCalls := st.chargeCalls + 1 }
  match env.chargeOutcome with
  | .error e => .error (e, payment, st)
  | .ok provider_tx_id =>
    match payment.mark_processing provider_tx_id env.now with
    | (.error e, payment) => .error (e, payment, st)
    | (.ok _, payment) =>
      let st := st.savePayment payment
      let transaction : Transaction :=
        ⟨env.chargeTxUuid, payment.id, req.amount, "charge", .processing,
         env.providerName, some provider_tx_id, none, env.now⟩
      let st := st.saveTransaction transaction
      match payment.mark_completed env.now with
      | (.error e, payment) => .error (e, payment, st)
      | (.ok _, payment) =>
        let transaction := { transaction with status := .completed }
        let st := st.savePayment payment
        let st := st.saveTransaction transaction
        let st := st.saveOutboxEvent "Payment" payment.id "PaymentCompleted"
          [("payment_id", payment.id), ("customer_id", payment.customer_id),
           ("amount", ratStr payment.amount.value),
           ("currency", payment.amount.currency),
           ("provider_transaction_id", provider_tx_id),
           ("status", payment.status.value)] env.now
        let response : PPResponse :=
          ⟨payment.id, payment.status.value, some provider_tx_id,
           payment.created_at⟩
        match env.storeOutcome with
        | .error e => .error (e, payment, st)
        | .ok _ =>
          let st := st.store_result req.idempotency_key (.process response)
          .ok (response, st)

/-- The non-short-circuit body of `ProcessPayment.execute`: create the
PENDING payment, persist it together with the `PaymentCreated` outbox event,
then run the `try` block, diverting exceptions to the `except` branch. -/
def ProcessPayment.executeFresh (env : PPEnv) (req : ProcessPaymentRequest)
    (st : Store) : Except Err PPResponse × Store :=
  match Payment.mk? env.paymentUuid req.customer_id req.amount
      req.payment_method env.providerName .pending none Amount.zero
      env.now env.now req.metadata with
  | .error e => (.error e, st)
  | .ok payment =>
    let st := st.savePayment payment
    let st := st.saveOutboxEvent "Payment" payment.id "PaymentCreated"
      [("payment_id", payment.id), ("customer_id", payment.customer_id),
       ("amount", ratStr payment.amount.value),
       ("currency", payment.amount.currency),
       ("payment_method", payment.payment_method),
       ("status", payment.status.value)] env.now
    match ProcessPayment.tryBlock env req payment st with
    | .ok (response, st) => (.ok response, st)
    | .error (e, payment, st) =>
      ProcessPayment.handleFailure env req e payment st

/-- `ProcessPayment.execute`. -/
def ProcessPayment.execute (env : PPEnv) (req : ProcessPaymentRequest)
    (st : Store) : Except Err PPResponse × Store :=
  if st.is_duplicate req.idempotency_key then
    match st.get_result req.idempotency_key with
    | some (.process cached) => (.ok cached, st)
    | some (.refundR r) =>
      -- `ProcessPaymentResponse(**cached)` on a dict with the wrong keys
      -- raises TypeError; no refund result is ever cached under a key a
      -- ProcessPayment call uses, so this branch is unreachable in practice.
      (.error (.valueError ("unexpected keyword argument " ++ r.payment_id)), st)
    | none =>
      ProcessPayment.executeFresh env req st
  else
    ProcessPayment.executeFresh env req st

/-! ## RefundPayment (`application/use_cases/refund_payment.py`)

This use case is constructed with a payment repository, a transaction
repository, a payment provider, an event publisher and an idempotency store —
and no outbox repository. Its single event is published through the
`EventPublisher` port (`publish_payment_refunded`), recorded in
`Store.publisherCalls`. -/

structure RefundPaymentRequest where
  payment_id : String
  amount : Option Amount
  idempotency_key : Option String
  deriving Repr, DecidableEq

/-- Environment of one `RefundPayment.execute` run: the outcome of the single
`Gateway.refund` call, and the `uuid4()` draws and clock. -/
structure RPEnv where
  refundOutcome : Except Err String
  fallbackUuid : String
  refundTxUuid : String
  providerName : String
  now : ℕ
  deriving Repr

/-- `str(refund_amount)` = `f"{value:.2f} {currency}"`; the exact decimal
rendering is immaterial to the claims. -/
def amountStr (a : Amount) : String := ratStr a.value ++ " " ++ a.currency

/-- `RefundPayment.execute`. There is no `try/except` in this use case: every
exception propagates to the caller at the point it is raised. -/
def RefundPayment.execute (env : RPEnv) (req : RefundPaymentRequest)
    (st : Store) : Except Err RPResponse × Store :=
  -- `request.idempotency_key or str(uuid.uuid4())` (empty string is falsy)
  let idempotency_key :=
    match req.idempotency_key with
    | some k => if k = "" then env.fallbackUuid else k
    | none => env.fallbackUuid
  match
    (if st.is_duplicate idempotency_key then
      st.get_result idempotency_key
    else none) with
  | some (.refundR cached) => (.ok cached, st)
  | some (.process r) =>
    -- `RefundPaymentResponse(**cached)` on a dict with ProcessPayment's keys
    -- raises TypeError; unreachable when keys are used consistently.
    (.error (.valueError ("unexpected keyword argument " ++ r.payment_id)), st)
  | none =>
    match st.payments.find? (·.id = req.payment_id) with
    | none =>
      (.error (.paymentNotFound ("Payment " ++ req.payment_id ++ " not found")),
       st)
    | some payment =>
      let refund_amount? :=
        match req.amount with
        | some a => Except.ok a
        | none => payment.remaining_refundable_amount
      match refund_amount? with
      | .error e => (.error e, st)
      | .ok refund_amount =>
        if ¬ payment.can_be_refunded then
          (.error (.valueError
            ("Payment " ++ payment.id ++ " cannot be refunded")), st)
        -- `if not payment.provider_transaction_id:` — falsy for both
        -- `None` and the empty string
        else if payment.provider_transaction_id = none ∨
            payment.provider_transaction_id = some "" then
          (.error (.valueError
            ("Payment " ++ payment.id ++ " has no provider transaction ID")),
           st)
        else
          let st := { st with refundCalls := st.refundCalls + 1 }
          match env.refundOutcome with
          | .error e => (.error e, st)
          | .ok refund_tx_id =>
            match payment.refund refund_amount env.now with
            | (.error e, _) => (.error e, st)
            | (.ok _, payment) =>
              let st := st.savePayment payment
              match Transaction.mk? env.refundTxUuid payment.id
                  refund_amount "refund" .completed env.providerName
                  (some refund_tx_id) none env.now with
              | .error e => (.error e, st)
              | .ok transaction =>
                let st := st.saveTransaction transaction
                let st := { st with publisherCalls := st.publisherCalls ++
                  [("publish_payment_refunded", payment.id)] }
                let response : RPResponse :=
                  ⟨payment.id, amountStr refund_amount, payment.status.value,
                   refund_tx_id, transaction.created_at⟩
                let st := st.store_result idempotency_key (.refundR response)
                (.ok response, st)

/-! ## OutboxPublisherService (`application/services/outbox_publisher.py`) -/

/-- `OutboxRepository.get_unpublished(limit)`: unpublished events in creation
order (the outbox list is kept in creation order). -/
def Store.get_unpublished (st : Store) (limit : ℕ) : List OutboxEvent :=
  (st.outbox.filter (·.published_at = none)).take limit

/-- `OutboxRepository.mark_published(event_id)`. -/
def Store.mark_published (st : Store) (event_id : ℕ) (now : ℕ) : Store :=
  { st with outbox := st.outbox.map (fun e =>
      if e.id = event_id then { e with published_at := some now } else e) }

/-- `OutboxRepository.increment_attempts(event_id, error)`. -/
def Store.increment_attempts (st : Store) (event_id : ℕ) (error : String) :
    Store :=
  { st with outbox := st.outbox.map (fun e =>
      if e.id = event_id then
        { e with attempts := e.attempts + 1, last_error := some error }
      else e) }

/-- `OutboxPublisherService._publish_event_with_retry(event_id)`. The body
re-reads the unpublished events, skips the event when it is gone or already
published, and otherwise marks it published — twice, as the source does —
without ever calling `publish_event` on the event bus (the source comments
this integration out and marks events published directly). The repository
operations are modelled as infallible state updates, so the `except` branch
(`increment_attempts` then re-raise, retried up to 3 times by `tenacity`) is
unreachable and the function always returns normally. -/
def OutboxPublisherService.publishEventWithRetry (st : Store) (event_id : ℕ)
    (now : ℕ) : Store :=
  let events := st.get_unpublished 1000
  match events.find? (·.id = event_id) with
  | none => st
  | some event =>
    if event.published_at ≠ none then st
    else ((st.mark_published event_id now).mark_published event_id now)

/-- `OutboxPublisherService.publish_pending_events(batch_size)`: returns the
number of successfully processed events and the updated store. Because
`_publish_event_with_retry` never raises in the model, every event in the
batch counts as published. -/
def OutboxPublisherService.publish_pending_events (st : Store)
    (batch_size : ℕ) (now : ℕ) : ℕ × Store :=
  let events := st.get_unpublished batch_size
  events.foldl
    (fun acc e => (acc.1 + 1, OutboxPublisherService.publishEventWithRetry
      acc.2 e.id now))
    (0, st)

/-! ## Invariants and helper lemmas -/

/-- The `Payment` data-model invariant stated in the spec (§3). -/
def Payment.Inv (p : Payment) : Prop :=
  p.refunded_amount.currency = p.amount.currency ∧
  p.refunded_amount.value ≤ p.amount.value

instance (p : Payment) : Decidable p.Inv := by
  unfold Payment.Inv; infer_instance

@[simp] theorem Store.outbox_savePayment (st : Store) (p : Payment) :
    (st.savePayment p).outbox = st.outbox := rfl

@[simp] theorem Store.outbox_saveTransaction (st : Store) (t : Transaction) :
    (st.saveTransaction t).outbox = st.outbox := rfl

@[simp] theorem Store.outbox_store_result (st : Store) (k : String)
    (r : CachedResult) : (st.store_result k r).outbox = st.outbox := rfl

@[simp] theorem Store.outbox_saveOutboxEvent (st : Store)
    (at_ aid et : String) (pl : List (String × String)) (now : ℕ) :
    (st.saveOutboxEvent at_ aid et pl now).outbox =
      st.outbox ++ [⟨st.nextEventId, at_, aid, et, pl, now, none, 0, none⟩] :=
  rfl

@[simp] theorem Store.chargeCalls_savePayment (st : Store) (p : Payment) :
    (st.savePayment p).chargeCalls = st.chargeCalls := rfl

@[simp] theorem Store.chargeCalls_saveTransaction (st : Store)
    (t : Transaction) : (st.saveTransaction t).chargeCalls = st.chargeCalls :=
  rfl

@[simp] theorem Store.chargeCalls_store_result (st : Store) (k : String)
    (r : CachedResult) : (st.store_result k r).chargeCalls = st.chargeCalls :=
  rfl

@[simp] theorem Store.chargeCalls_saveOutboxEvent (st : Store)
    (at_ aid et : String) (pl : List (String × String)) (now : ℕ) :
    (st.saveOutboxEvent at_ aid et pl now).chargeCalls = st.chargeCalls := rfl

@[simp] theorem Store.transactions_savePayment (st : Store) (p : Payment) :
    (st.savePayment p).transactions = st.transactions := rfl

@[simp] theorem Store.transactions_store_result (st : Store) (k : String)
    (r : CachedResult) : (st.store_result k r).transactions =
      st.transactions := rfl

@[simp] theorem Store.transactions_saveOutboxEvent (st : Store)
    (at_ aid et : String) (pl : List (String × String)) (now : ℕ) :
    (st.saveOutboxEvent at_ aid et pl now).transactions = st.transactions :=
  rfl

@[simp] theorem Store.payments_saveTransaction (st : Store)
    (t : Transaction) : (st.saveTransaction t).payments = st.payments := rfl

@[simp] theorem Store.payments_store_result (st : Store) (k : String)
    (r : CachedResult) : (st.store_result k r).payments = st.payments := rfl

@[simp] theorem Store.payments_saveOutboxEvent (st : Store)
    (at_ aid et : String) (pl : List (String × String)) (now : ℕ) :
    (st.saveOutboxEvent at_ aid et pl now).payments = st.payments := rfl

@[simp] theorem Store.nextEventId_savePayment (st : Store) (p : Payment) :
    (st.savePayment p).nextEventId = st.nextEventId := rfl

@[simp] theorem Store.nextEventId_saveTransaction (st : Store)
    (t : Transaction) : (st.saveTransaction t).nextEventId = st.nextEventId :=
  rfl

@[simp] theorem Store.nextEventId_store_result (st : Store) (k : String)
    (r : CachedResult) : (st.store_result k r).nextEventId = st.nextEventId :=
  rfl

@[simp] theorem Store.nextEventId_saveOutboxEvent (st : Store)
    (at_ aid et : String) (pl : List (String × String)) (now : ℕ) :
    (st.saveOutboxEvent at_ aid et pl now).nextEventId =
      st.nextEventId + 1 := rfl

@[simp] theorem Store.idem_savePayment (st : Store) (p : Payment) :
    (st.savePayment p).idem = st.idem := rfl

@[simp] theorem Store.idem_saveTransaction (st : Store) (t : Transaction) :
    (st.saveTransaction t).idem = st.idem := rfl

@[simp] theorem Store.idem_saveOutboxEvent (st : Store)
    (at_ aid et : String) (pl : List (String × String)) (now : ℕ) :
    (st.saveOutboxEvent at_ aid et pl now).idem = st.idem := rfl

@[simp] theorem Store.publisherCalls_savePayment (st : Store) (p : Payment) :
    (st.savePayment p).publisherCalls = st.publisherCalls := rfl

@[simp] theorem Store.publisherCalls_saveTransaction (st : Store)
    (t : Transaction) : (st.saveTransaction t).publisherCalls =
      st.publisherCalls := rfl

@[simp] theorem Store.publisherCalls_store_result (st : Store) (k : String)
    (r : CachedResult) : (st.store_result k r).publisherCalls =
      st.publisherCalls := rfl

@[simp] theorem Store.publisherCalls_saveOutboxEvent (st : Store)
    (at_ aid et : String) (pl : List (String × String)) (now : ℕ) :
    (st.saveOutboxEvent at_ aid et pl now).publisherCalls =
      st.publisherCalls := rfl

@[simp] theorem Store.refundCalls_savePayment (st : Store) (p : Payment) :
    (st.savePayment p).refundCalls = st.refundCalls := rfl

@[simp] theorem Store.refundCalls_saveTransaction (st : Store)
    (t : Transaction) : (st.saveTransaction t).refundCalls =
      st.refundCalls := rfl

@[simp] theorem Store.refundCalls_store_result (st : Store) (k : String)
    (r : CachedResult) : (st.store_result k r).refundCalls =
      st.refundCalls := rfl

@[simp] theorem Store.refundCalls_saveOutboxEvent (st : Store)
    (at_ aid et : String) (pl : List (String × String)) (now : ℕ) :
    (st.saveOutboxEvent at_ aid et pl now).refundCalls = st.refundCalls :=
  rfl

/-- `store_result` makes the key a duplicate. -/
theorem Store.is_duplicate_store_result (st : Store) (k : String)
    (r : CachedResult) : (st.store_result k r).is_duplicate k = true := by
  simp [Store.store_result, Store.is_duplicate]

/-- `store_result` caches the result under the key. -/
theorem Store.get_result_store_result (st : Store) (k : String)
    (r : CachedResult) : (st.store_result k r).get_result k = some r := by
  simp [Store.store_result, Store.get_result, List.find?_cons_of_pos]

/-- Inserting a transaction with an id absent from the store conses it. -/
theorem Store.saveTransaction_fresh (st : Store) (t : Transaction)
    (h : st.transactions.any (fun u => u.id = t.id) = false) :
    (st.saveTransaction t).transactions = t :: st.transactions := by
  simp [Store.saveTransaction, h]

/-- Upserting over a list that does not contain the id is the identity. -/
theorem upsert_map_of_not_any {α : Type} (idOf : α → String) (l : List α)
    (t' : α) (h : l.any (fun u => idOf u = idOf t') = false) :
    l.map (fun u => if idOf u = idOf t' then t' else u) = l := by
  induction l with
  | nil => rfl
  | cons a l ih =>
    simp only [List.any_cons, Bool.or_eq_false_iff] at h
    simp only [List.map_cons, if_neg (by simpa using h.1), ih h.2]

/-- A successful `Amount` addition returns the componentwise sum with the
left operand's currency. -/
theorem Amount.add_ok {a b t : Amount} (h : a.add b = .ok t) :
    t = ⟨a.value + b.value, a.currency⟩ := by
  unfold Amount.add Amount.mk? at h
  split at h
  · cases h
  · split at h
    · cases h
    · split at h
      · cases h
      · cases h; rfl

/-- Characterization of a successful `Payment` construction. -/
theorem Payment.mk?_ok_eq {id cid : String} {a : Amount} {pm prov : String}
    {stt : TransactionStatus} {ptid : Option String} {ra : Amount}
    {ca ua : ℕ} {md : List (String × String)} {q : Payment}
    (h : Payment.mk? id cid a pm prov stt ptid ra ca ua md = .ok q) :
    q = ⟨id, cid, a, pm, prov, stt, ptid,
      if ra.currency ≠ a.currency then Amount.zero a.currency else ra,
      ca, ua, md⟩ := by
  unfold Payment.mk? at h
  split at h
  · cases h
  · split at h
    · cases h
    · split at h
      · cases h
      · cases h; rfl

/-- A `try` block that returns normally made a successful gateway charge and
a successful `store_result` call. -/
theorem ProcessPayment.tryBlock_ok_inv (env : PPEnv)
    (req : ProcessPaymentRequest) (payment : Payment) (st : Store)
    (r : PPResponse) (s : Store)
    (h : ProcessPayment.tryBlock env req payment st = .ok (r, s)) :
    ∃ ptx, env.chargeOutcome = .ok ptx ∧ env.storeOutcome = .ok () := by
  unfold ProcessPayment.tryBlock at h
  split at h
  · simp at h
  · rename_i ptx hc
    split at h
    · simp at h
    · split at h
      · simp at h
      · split at h
        · simp at h
        · rename_i u hs
          cases u
          exact ⟨ptx, hc, hs⟩

/-- The `except` branch never returns a normal result. -/
theorem ProcessPayment.handleFailure_ne_ok (env : PPEnv)
    (req : ProcessPaymentRequest) (e : Err) (p : Payment) (st : Store)
    (resp : PPResponse) (st' : Store) :
    ProcessPayment.handleFailure env req e p st ≠ (.ok resp, st') := by
  unfold ProcessPayment.handleFailure
  split <;> simp

/-- A successful non-short-circuit run made a successful gateway charge and
a successful `store_result` call. -/
theorem ProcessPayment.executeFresh_ok_inv (env : PPEnv)
    (req : ProcessPaymentRequest) (st : Store) (resp : PPResponse)
    (st' : Store)
    (h : ProcessPayment.executeFresh env req st = (.ok resp, st')) :
    ∃ payment ptx,
      Payment.mk? env.paymentUuid req.customer_id req.amount
        req.payment_method env.providerName .pending none Amount.zero
        env.now env.now req.metadata = .ok payment ∧
      env.chargeOutcome = .ok ptx ∧ env.storeOutcome = .ok () := by
  unfold ProcessPayment.executeFresh at h
  split at h
  · simp at h
  · rename_i payment hmk
    dsimp only at h
    split at h
    · rename_i r s htb
      obtain ⟨ptx, hc, hs⟩ :=
        ProcessPayment.tryBlock_ok_inv env req payment _ r s htb
      exact ⟨payment, ptx, hmk, hc, hs⟩
    · rename_i e p s _
      exact absurd h (ProcessPayment.handleFailure_ne_ok env req e p s resp st')

/-- Evaluation of the non-short-circuit body on the success path: the charge
succeeds, the payment is driven PENDING → PROCESSING → COMPLETED, the outbox
receives exactly `PaymentCreated` then `PaymentCompleted`, the gateway is
charged once, and the response is cached under the idempotency key. -/
theorem ProcessPayment.executeFresh_success (env : PPEnv)
    (req : ProcessPaymentRequest) (st : Store) (payment : Payment)
    (ptx : String)
    (hmk : Payment.mk? env.paymentUuid req.customer_id req.amount
      req.payment_method env.providerName .pending none Amount.zero
      env.now env.now req.metadata = .ok payment)
    (hc : env.chargeOutcome = .ok ptx)
    (hs : env.storeOutcome = .ok ()) :
    (ProcessPayment.executeFresh env req st).1 =
      .ok ⟨payment.id, "completed", some ptx, payment.created_at⟩ ∧
    (∃ pl1 pl2, (ProcessPayment.executeFresh env req st).2.outbox =
      st.outbox ++
        [⟨st.nextEventId, "Payment", payment.id, "PaymentCreated", pl1,
          env.now, none, 0, none⟩,
         ⟨st.nextEventId + 1, "Payment", payment.id, "PaymentCompleted", pl2,
          env.now, none, 0, none⟩]) ∧
    (ProcessPayment.executeFresh env req st).2.chargeCalls =
      st.chargeCalls + 1 ∧
    (ProcessPayment.executeFresh env req st).2.is_duplicate
      req.idempotency_key = true ∧
    (ProcessPayment.executeFresh env req st).2.get_result
      req.idempotency_key =
      some (.process ⟨payment.id, "completed", some ptx,
        payment.created_at⟩) := by
  have hst : payment.status = .pending := by
    rw [Payment.mk?_ok_eq hmk]
  refine ⟨?_,
    ⟨[("payment_id", payment.id), ("customer_id", payment.customer_id),
      ("amount", ratStr payment.amount.value),
      ("currency", payment.amount.currency),
      ("payment_method", payment.payment_method), ("status", "pending")],
     [("payment_id", payment.id), ("customer_id", payment.customer_id),
      ("amount", ratStr payment.amount.value),
      ("currency", payment.amount.currency),
      ("provider_transaction_id", ptx), ("status", "completed")], ?_⟩,
    ?_, ?_, ?_⟩ <;>
    simp [ProcessPayment.executeFresh, ProcessPayment.tryBlock, hmk, hc, hs,
      hst, Payment.mark_processing, Payment.mark_completed,
      TransactionStatus.value, Store.is_duplicate_store_result,
      Store.get_result_store_result]

/-- Any successful non-short-circuit run leaves its response cached under
the request's idempotency key. -/
theorem ProcessPayment.executeFresh_ok_caches (env : PPEnv)
    (req : ProcessPaymentRequest) (st : Store) (resp : PPResponse)
    (st' : Store)
    (h : ProcessPayment.executeFresh env req st = (.ok resp, st')) :
    st'.is_duplicate req.idempotency_key = true ∧
    st'.get_result req.idempotency_key = some (.process resp) := by
  obtain ⟨payment, ptx, hmk, hc, hs⟩ :=
    ProcessPayment.executeFresh_ok_inv env req st resp st' h
  have hsucc :=
    ProcessPayment.executeFresh_success env req st payment ptx hmk hc hs
  rw [h] at hsucc
  obtain ⟨hresp, _, _, hdup, hres⟩ := hsucc
  simp only at hresp hdup hres
  cases hresp
  exact ⟨hdup, hres⟩

/-- Any successful `ProcessPayment.execute` run leaves its response cached
under the request's idempotency key. -/
theorem ProcessPayment.execute_ok_caches (env : PPEnv)
    (req : ProcessPaymentRequest) (st : Store) (resp : PPResponse)
    (st' : Store)
    (h : ProcessPayment.execute env req st = (.ok resp, st')) :
    st'.is_duplicate req.idempotency_key = true ∧
    st'.get_result req.idempotency_key = some (.process resp) := by
  unfold ProcessPayment.execute at h
  split at h
  · rename_i hdup
    split at h
    · rename_i cached hres
      simp only [Prod.mk.injEq] at h
      obtain ⟨h1, h2⟩ := h
      injection h1 with h1
      subst h1
      subst h2
      exact ⟨hdup, hres⟩
    · rename_i r hres
      simp at h
    · exact ProcessPayment.executeFresh_ok_caches env req st resp st' h
  · exact ProcessPayment.executeFresh_ok_caches env req st resp st' h

/-- A call whose key is present with a cached process response
short-circuits: it returns the cached response and leaves the store
untouched. -/
theorem ProcessPayment.execute_cached (env : PPEnv)
    (req : ProcessPaymentRequest) (st : Store) (resp : PPResponse)
    (hdup : st.is_duplicate req.idempotency_key = true)
    (hres : st.get_result req.idempotency_key = some (.process resp)) :
    ProcessPayment.execute env req st = (.ok resp, st) := by
  unfold ProcessPayment.execute
  simp [hdup, hres]

/-- A call whose key has no cached result runs the full orchestration body. -/
theorem ProcessPayment.execute_not_cached (env : PPEnv)
    (req : ProcessPaymentRequest) (st : Store)
    (hnd : st.get_result req.idempotency_key = none) :
    ProcessPayment.execute env req st =
      ProcessPayment.executeFresh env req st := by
  unfold ProcessPayment.execute
  split
  · simp [hnd]
  · rfl

/-- Whenever the orchestration body runs with a successfully constructed
payment, the gateway is charged exactly once and a `PaymentCreated` event is
in the outbox, whatever the charge and store outcomes. -/
theorem ProcessPayment.executeFresh_always_charges (env : PPEnv)
    (req : ProcessPaymentRequest) (st : Store) (payment : Payment)
    (hmk : Payment.mk? env.paymentUuid req.customer_id req.amount
      req.payment_method env.providerName .pending none Amount.zero
      env.now env.now req.metadata = .ok payment) :
    (ProcessPayment.executeFresh env req st).2.chargeCalls =
      st.chargeCalls + 1 ∧
    ∃ pl, (⟨st.nextEventId, "Payment", payment.id, "PaymentCreated", pl,
      env.now, none, 0, none⟩ : OutboxEvent) ∈
      (ProcessPayment.executeFresh env req st).2.outbox := by
  have hst : payment.status = .pending := by
    rw [Payment.mk?_ok_eq hmk]
  rcases hco : env.chargeOutcome with e | ptx
  · refine ⟨?_, ⟨[("payment_id", payment.id),
      ("customer_id", payment.customer_id),
      ("amount", ratStr payment.amount.value),
      ("currency", payment.amount.currency),
      ("payment_method", payment.payment_method),
      ("status", "pending")], ?_⟩⟩ <;>
      simp [ProcessPayment.executeFresh, ProcessPayment.tryBlock,
        ProcessPayment.handleFailure, hmk, hco, hst, Payment.mark_failed,
        TransactionStatus.value]
  · rcases hso : env.storeOutcome with se | u
    · refine ⟨?_, ⟨[("payment_id", payment.id),
        ("customer_id", payment.customer_id),
        ("amount", ratStr payment.amount.value),
        ("currency", payment.amount.currency),
        ("payment_method", payment.payment_method),
        ("status", "pending")], ?_⟩⟩ <;>
        simp [ProcessPayment.executeFresh, ProcessPayment.tryBlock,
          ProcessPayment.handleFailure, hmk, hco, hso, hst,
          Payment.mark_processing, Payment.mark_completed,
          Payment.mark_failed, TransactionStatus.value]
    · cases u
      obtain ⟨_, ⟨pl1, pl2, hout⟩, hcc, _, _⟩ :=
        ProcessPayment.executeFresh_success env req st payment ptx hmk hco hso
      exact ⟨hcc, ⟨pl1, by rw [hout]; simp⟩⟩

/-- A successful refund never changes the payment id. -/
theorem Payment.refund_ok_id {p p' : Payment} {x : Amount} {now : ℕ}
    (h : p.refund x now = (.ok (), p')) : p'.id = p.id := by
  unfold Payment.refund at h
  split at h
  · simp at h
  · split at h
    · simp at h
    · split at h
      · simp at h
      · simp only [Prod.mk.injEq] at h
        obtain ⟨-, h2⟩ := h
        subst h2
        dsimp only
        split <;> rfl

/-- A saved payment is in the store afterwards, provided some payment with
its id was there (or none was). -/
theorem Store.mem_savePayment_of_mem (st : Store) (p q : Payment)
    (hq : q ∈ st.payments) (hid : q.id = p.id) :
    p ∈ (st.savePayment p).payments := by
  unfold Store.savePayment
  by_cases hA : (st.payments.any (fun u => u.id = p.id)) = true
  · simp only [hA, if_true]
    have hmm := List.mem_map_of_mem (fun u => if u.id = p.id then p else u) hq
    simpa [hid] using hmm
  · simp [hA]

/-- A saved transaction is in the store afterwards. -/
theorem Store.mem_saveTransaction_self (st : Store) (t : Transaction) :
    t ∈ (st.saveTransaction t).transactions := by
  unfold Store.saveTransaction
  by_cases hA : (st.transactions.any (fun u => u.id = t.id)) = true
  · simp only [hA, if_true]
    obtain ⟨u, hu, hid⟩ := List.any_eq_true.mp hA
    have hfu : (fun u => if u.id = t.id then t else u) u = t := by
      simp [of_decide_eq_true hid]
    have hmm := List.mem_map_of_mem (fun u => if u.id = t.id then t else u) hu
    rwa [hfu] at hmm
  · simp [hA]

/-- Evaluation of a fully successful `RefundPayment.execute` run: the stored
provider transaction id is non-falsy (neither `None` nor empty), the refund
is applied and persisted, a COMPLETED refund `Transaction` is constructed
through its validating constructor and appended, the `PaymentRefunded` fact
goes through the event-publisher port, the response is cached — and the
outbox is not written at all. -/
theorem RefundPayment.execute_success (env : RPEnv)
    (req : RefundPaymentRequest) (st : Store) (payment p' : Payment)
    (k ptx rid : String) (ra : Amount)
    (hkey : req.idempotency_key = some k) (hk : ¬ k = "")
    (hnd : st.get_result k = none)
    (hfind : st.payments.find? (fun p => p.id = req.payment_id) =
      some payment)
    (hamt : req.amount = some ra)
    (hcan : payment.can_be_refunded = true)
    (hptx : payment.provider_transaction_id = some ptx)
    (hptxe : ¬ ptx = "")
    (hrf : env.refundOutcome = .ok rid)
    (hrefund : payment.refund ra env.now = (.ok (), p'))
    (hrtx : ¬ env.refundTxUuid = "") (hpid : ¬ p'.id = "")
    (hprov : ¬ env.providerName = "") :
    (RefundPayment.execute env req st).1 =
      .ok ⟨p'.id, amountStr ra, p'.status.value, rid, env.now⟩ ∧
    (RefundPayment.execute env req st).2.outbox = st.outbox ∧
    p' ∈ (RefundPayment.execute env req st).2.payments ∧
    (⟨env.refundTxUuid, p'.id, ra, "refund", .completed, env.providerName,
      some rid, none, env.now⟩ : Transaction) ∈
      (RefundPayment.execute env req st).2.transactions ∧
    (RefundPayment.execute env req st).2.publisherCalls =
      st.publisherCalls ++ [("publish_payment_refunded", p'.id)] ∧
    (RefundPayment.execute env req st).2.get_result k =
      some (.refundR ⟨p'.id, amountStr ra, p'.status.value, rid,
        env.now⟩) := by
  have hif : (if st.is_duplicate k then st.get_result k else none) = none :=
    by split <;> simp [hnd]
  have hmkt : Transaction.mk? env.refundTxUuid p'.id ra "refund" .completed
      env.providerName (some rid) none env.now =
      .ok ⟨env.refundTxUuid, p'.id, ra, "refund", .completed,
        env.providerName, some rid, none, env.now⟩ := by
    simp [Transaction.mk?, hrtx, hpid, hprov]
  refine ⟨?_, ?_, ?_, ?_, ?_, ?_⟩ <;>
    simp [RefundPayment.execute, hkey, hk, hif, hfind, hamt, hcan, hptx,
      hptxe, hrf, hrefund, hmkt, Store.get_result_store_result]
  · exact Store.mem_savePayment_of_mem _ _ _
      (List.mem_of_find?_eq_some hfind) (Payment.refund_ok_id hrefund).symm
  · exact Store.mem_saveTransaction_self _ _

/-! ## Claim theorems -/

/-- C8: for all well-formed same-currency Amounts `a`, `b`, `a + b` succeeds
and `(a + b) - b == a`; the subtraction does not hit the negative-result
rejection. -/
theorem amount_add_sub_roundtrip (a b : Amount) (ha : a.WF) (hb : b.WF)
    (hcur : a.currency = b.currency) :
    a.add b = .ok ⟨a.value + b.value, a.currency⟩ ∧
    (a.add b).bind (fun s => s.sub b) = .ok a := by
  obtain ⟨ha0, hane, halen⟩ := ha
  obtain ⟨hb0, _, _⟩ := hb
  have hadd : a.add b = .ok ⟨a.value + b.value, a.currency⟩ := by
    unfold Amount.add Amount.mk?
    rw [if_neg (by simp [hcur])]
    rw [if_neg (by push_neg; linarith)]
    rw [if_neg (by push_neg; exact ⟨hane, halen⟩)]
  refine ⟨hadd, ?_⟩
  rw [hadd]
  show Amount.sub ⟨a.value + b.value, a.currency⟩ b = .ok a
  unfold Amount.sub Amount.mk?
  rw [if_neg (by simp [hcur])]
  rw [if_neg (by push_neg; simp; linarith)]
  rw [if_neg (by push_neg; simp; linarith)]
  rw [if_neg (by push_neg; exact ⟨hane, halen⟩)]
  simp

/-- C8 witness at `a = 3 USD`, `b = 5 USD`. -/
theorem amount_add_sub_roundtrip_witness :
    (Amount.WF ⟨3, "USD"⟩ ∧ Amount.WF ⟨5, "USD"⟩ ∧
      ("USD" : String) = "USD") ∧
    (Amount.add ⟨3, "USD"⟩ ⟨5, "USD"⟩ = .ok ⟨3 + 5, "USD"⟩ ∧
     (Amount.add ⟨3, "USD"⟩ ⟨5, "USD"⟩).bind
        (fun s => s.sub ⟨5, "USD"⟩) = .ok ⟨3, "USD"⟩) :=
  ⟨⟨by decide, by decide, rfl⟩,
   amount_add_sub_roundtrip ⟨3, "USD"⟩ ⟨5, "USD"⟩
     (by decide) (by decide) rfl⟩

/-- C5: on a refundable payment, `refund x` with `x` of the payment's
currency is accepted exactly when `refunded_amount + x ≤ amount` — setting
`REFUNDED` on equality and `PARTIALLY_REFUNDED` strictly below — and rejected
with `RefundExceedsOriginal` above, without mutation. -/
theorem payment_refund_boundary (p : Payment) (x : Amount) (now : ℕ)
    (hst : p.status.can_refund = true)
    (hr : p.refunded_amount.WF) (hx : x.WF)
    (hcur : p.refunded_amount.currency = p.amount.currency)
    (hxcur : x.currency = p.amount.currency) :
    (p.refunded_amount.value + x.value = p.amount.value →
      (p.refund x now).1 = .ok () ∧
      (p.refund x now).2.status = .refunded ∧
      (p.refund x now).2.refunded_amount.value =
        p.refunded_amount.value + x.value) ∧
    (p.refunded_amount.value + x.value < p.amount.value →
      (p.refund x now).1 = .ok () ∧
      (p.refund x now).2.status = .partially_refunded ∧
      (p.refund x now).2.refunded_amount.value =
        p.refunded_amount.value + x.value) ∧
    (p.refunded_amount.value + x.value > p.amount.value →
      ∃ m, p.refund x now = (.error (.refundExceedsOriginal m), p)) := by
  obtain ⟨hr0, hrne, hrlen⟩ := hr
  obtain ⟨hx0, _, _⟩ := hx
  have hadd : p.refunded_amount.add x =
      .ok ⟨p.refunded_amount.value + x.value, p.refunded_amount.currency⟩ := by
    unfold Amount.add Amount.mk?
    rw [if_neg (by simp [hcur, hxcur])]
    rw [if_neg (by push_neg; linarith)]
    rw [if_neg (by push_neg; exact ⟨hrne, hrlen⟩)]
  refine ⟨fun heq => ?_, fun hlt => ?_, fun hgt => ?_⟩
  · have hng : ¬ ((⟨p.refunded_amount.value + x.value,
        p.refunded_amount.currency⟩ : Amount).value > p.amount.value) := by
      simp; linarith
    simp [Payment.refund, hst, hadd, hng, heq]
  · have hng : ¬ ((⟨p.refunded_amount.value + x.value,
        p.refunded_amount.currency⟩ : Amount).value > p.amount.value) := by
      simp; linarith
    have hne : ¬ (p.refunded_amount.value + x.value = p.amount.value) := by
      linarith
    simp [Payment.refund, hst, hadd, hng, hne]
  · refine ⟨"Refund amount exceeds original payment", ?_⟩
    have hg : ((⟨p.refunded_amount.value + x.value,
        p.refunded_amount.currency⟩ : Amount).value > p.amount.value) := by
      simpa using hgt
    simp [Payment.refund, hst, hadd, hg]

/-- C5 witness: a COMPLETED 100 USD payment with 30 USD already refunded;
`x = 70` hits the boundary (REFUNDED), `x = 70` is also used for the strict
and exceed cases through the three implications. -/
theorem payment_refund_boundary_witness :
    (TransactionStatus.can_refund .completed = true ∧
     Amount.WF ⟨30, "USD"⟩ ∧ Amount.WF ⟨70, "USD"⟩) ∧
    ((30 : ℚ) + 70 = 100 →
      ((Payment.mk "p1" "c1" ⟨100, "USD"⟩ "card" "stripe" .completed
          (some "tx") ⟨30, "USD"⟩ 0 0 []).refund ⟨70, "USD"⟩ 9).1 = .ok () ∧
      ((Payment.mk "p1" "c1" ⟨100, "USD"⟩ "card" "stripe" .completed
          (some "tx") ⟨30, "USD"⟩ 0 0 []).refund ⟨70, "USD"⟩ 9).2.status =
        .refunded ∧
      ((Payment.mk "p1" "c1" ⟨100, "USD"⟩ "card" "stripe" .completed
          (some "tx") ⟨30, "USD"⟩ 0 0 []).refund ⟨70, "USD"⟩
          9).2.refunded_amount.value = 30 + 70) := by
  have h := payment_refund_boundary
    (Payment.mk "p1" "c1" ⟨100, "USD"⟩ "card" "stripe" .completed
      (some "tx") ⟨30, "USD"⟩ 0 0 []) ⟨70, "USD"⟩ 9
    (by decide) (by decide) (by decide) rfl rfl
  exact ⟨⟨by decide, by decide, by decide⟩, h.1⟩

/-- C6: every illegal transition raises `InvalidPaymentStateError` and
returns the payment with no field modified; every rejected `refund`
(including `RefundExceedsOriginal`) likewise leaves the payment unchanged. -/
theorem payment_no_partial_mutation (p : Payment) (tx : String) (x : Amount)
    (now : ℕ) :
    (p.status ≠ .pending →
      ∃ m, p.mark_processing tx now = (.error (.invalidPaymentState m), p)) ∧
    (p.status ≠ .processing →
      ∃ m, p.mark_completed now = (.error (.invalidPaymentState m), p)) ∧
    (p.status = .completed ∨ p.status = .refunded →
      ∃ m, p.mark_failed now = (.error (.invalidPaymentState m), p)) ∧
    (p.status.can_refund = false →
      ∃ m, p.refund x now = (.error (.invalidPaymentState m), p)) ∧
    (∀ e, (p.refund x now).1 = .error e → (p.refund x now).2 = p) := by
  refine ⟨fun h => ?_, fun h => ?_, fun h => ?_, fun h => ?_, fun e he => ?_⟩
  · exact ⟨_, by unfold Payment.mark_processing; rw [if_pos h]⟩
  · exact ⟨_, by unfold Payment.mark_completed; rw [if_pos h]⟩
  · exact ⟨_, by unfold Payment.mark_failed; rw [if_pos h]⟩
  · exact ⟨_, by unfold Payment.refund; rw [if_pos (by simp [h])]⟩
  · rcases hres : p.refund x now with ⟨r, q⟩
    rw [hres] at he
    unfold Payment.refund at hres
    split at hres
    · injection hres with h1 h2; exact h2.symm
    · split at hres
      · injection hres with h1 h2; exact h2.symm
      · split at hres
        · injection hres with h1 h2; exact h2.symm
        · injection hres with h1 h2
          rw [← h1] at he
          simp at he

/-- C6 witness: a COMPLETED payment rejects `mark_processing` without
mutation, and a PENDING payment rejects `refund` without mutation. -/
theorem payment_no_partial_mutation_witness :
    (∃ m, (Payment.mk "p1" "c1" ⟨100, "USD"⟩ "card" "stripe" .completed
        (some "tx") ⟨0, "USD"⟩ 0 0 []).mark_processing "t2" 9 =
      (.error (.invalidPaymentState m),
       Payment.mk "p1" "c1" ⟨100, "USD"⟩ "card" "stripe" .completed
        (some "tx") ⟨0, "USD"⟩ 0 0 [])) ∧
    (∃ m, (Payment.mk "p2" "c1" ⟨100, "USD"⟩ "card" "stripe" .pending
        none ⟨0, "USD"⟩ 0 0 []).refund ⟨50, "USD"⟩ 9 =
      (.error (.invalidPaymentState m),
       Payment.mk "p2" "c1" ⟨100, "USD"⟩ "card" "stripe" .pending
        none ⟨0, "USD"⟩ 0 0 [])) := by
  have h1 := payment_no_partial_mutation
    (Payment.mk "p1" "c1" ⟨100, "USD"⟩ "card" "stripe" .completed
      (some "tx") ⟨0, "USD"⟩ 0 0 []) "t2" ⟨50, "USD"⟩ 9
  have h2 := payment_no_partial_mutation
    (Payment.mk "p2" "c1" ⟨100, "USD"⟩ "card" "stripe" .pending
      none ⟨0, "USD"⟩ 0 0 []) "t2" ⟨50, "USD"⟩ 9
  exact ⟨h1.1 (by decide), h2.2.2.2.1 (by decide)⟩

/-- C3: once a `ProcessPayment` call with key `k` has completed successfully,
a second call with the same key returns exactly the first call's response,
leaves the store untouched, and performs no further `Gateway.charge` call. -/
theorem process_payment_idempotent (env1 env2 : PPEnv)
    (req req' : ProcessPaymentRequest) (st0 : Store) (resp1 : PPResponse)
    (hk : req'.idempotency_key = req.idempotency_key)
    (h1 : (ProcessPayment.execute env1 req st0).1 = .ok resp1) :
    ProcessPayment.execute env2 req' (ProcessPayment.execute env1 req st0).2 =
      (.ok resp1, (ProcessPayment.execute env1 req st0).2) ∧
    (ProcessPayment.execute env2 req'
        (ProcessPayment.execute env1 req st0).2).2.chargeCalls =
      (ProcessPayment.execute env1 req st0).2.chargeCalls := by
  have hE : ProcessPayment.execute env1 req st0 =
      (.ok resp1, (ProcessPayment.execute env1 req st0).2) := by
    rw [← h1]
  obtain ⟨hdup, hres⟩ :=
    ProcessPayment.execute_ok_caches env1 req st0 resp1 _ hE
  have hmain : ProcessPayment.execute env2 req'
      (ProcessPayment.execute env1 req st0).2 =
      (.ok resp1, (ProcessPayment.execute env1 req st0).2) :=
    ProcessPayment.execute_cached env2 req' _ resp1 (hk ▸ hdup) (hk ▸ hres)
  exact ⟨hmain, by rw [hmain]⟩

/-- C3 witness: a first call on an empty store succeeds; replaying the same
key against a gateway that would now fail still returns the first response
and leaves the charge counter at 1. -/
theorem process_payment_idempotent_witness :
    ((⟨"cust-1", ⟨100, "USD"⟩, "card", "tok-1", "key-1", []⟩ :
        ProcessPaymentRequest).idempotency_key =
      (⟨"cust-1", ⟨100, "USD"⟩, "card", "tok-1", "key-1", []⟩ :
        ProcessPaymentRequest).idempotency_key ∧
     (ProcessPayment.execute
        ⟨.ok "ptx-1", .ok (), "pid-1", "ctx-1", "ftx-1", "stripe", 7⟩
        ⟨"cust-1", ⟨100, "USD"⟩, "card", "tok-1", "key-1", []⟩
        ⟨[], [], [], 0, [], 0, 0, []⟩).1 =
      .ok ⟨"pid-1", "completed", some "ptx-1", 7⟩) ∧
    (ProcessPayment.execute
        ⟨.error (.providerError "gateway down"), .ok (), "pid-2", "ctx-2",
          "ftx-2", "stripe", 8⟩
        ⟨"cust-1", ⟨100, "USD"⟩, "card", "tok-1", "key-1", []⟩
        (ProcessPayment.execute
          ⟨.ok "ptx-1", .ok (), "pid-1", "ctx-1", "ftx-1", "stripe", 7⟩
          ⟨"cust-1", ⟨100, "USD"⟩, "card", "tok-1", "key-1", []⟩
          ⟨[], [], [], 0, [], 0, 0, []⟩).2 =
      (.ok ⟨"pid-1", "completed", some "ptx-1", 7⟩,
       (ProcessPayment.execute
          ⟨.ok "ptx-1", .ok (), "pid-1", "ctx-1", "ftx-1", "stripe", 7⟩
          ⟨"cust-1", ⟨100, "USD"⟩, "card", "tok-1", "key-1", []⟩
          ⟨[], [], [], 0, [], 0, 0, []⟩).2) ∧
     (ProcessPayment.execute
        ⟨.error (.providerError "gateway down"), .ok (), "pid-2", "ctx-2",
          "ftx-2", "stripe", 8⟩
        ⟨"cust-1", ⟨100, "USD"⟩, "card", "tok-1", "key-1", []⟩
        (ProcessPayment.execute
          ⟨.ok "ptx-1", .ok (), "pid-1", "ctx-1", "ftx-1", "stripe", 7⟩
          ⟨"cust-1", ⟨100, "USD"⟩, "card", "tok-1", "key-1", []⟩
          ⟨[], [], [], 0, [], 0, 0, []⟩).2).2.chargeCalls =
      (ProcessPayment.execute
        ⟨.ok "ptx-1", .ok (), "pid-1", "ctx-1", "ftx-1", "stripe", 7⟩
        ⟨"cust-1", ⟨100, "USD"⟩, "card", "tok-1", "key-1", []⟩
        ⟨[], [], [], 0, [], 0, 0, []⟩).2.chargeCalls) :=
  ⟨⟨rfl, by rfl⟩,
   process_payment_idempotent
     ⟨.ok "ptx-1", .ok (), "pid-1", "ctx-1", "ftx-1", "stripe", 7⟩
     ⟨.error (.providerError "gateway down"), .ok (), "pid-2", "ctx-2",
       "ftx-2", "stripe", 8⟩
     ⟨"cust-1", ⟨100, "USD"⟩, "card", "tok-1", "key-1", []⟩
     ⟨"cust-1", ⟨100, "USD"⟩, "card", "tok-1", "key-1", []⟩
     ⟨[], [], [], 0, [], 0, 0, []⟩
     ⟨"pid-1", "completed", some "ptx-1", 7⟩ rfl (by rfl)⟩

/-- C4: after a successful non-cached `ProcessPayment` run whose payment id
is new to the outbox, the outbox events for the returned payment id are
exactly one `PaymentCreated` followed by one terminal `PaymentCompleted`,
and nothing else. -/
theorem process_payment_outbox_exactly_one (env : PPEnv)
    (req : ProcessPaymentRequest) (st : Store) (resp : PPResponse)
    (st' : Store)
    (hnd : st.get_result req.idempotency_key = none)
    (hfresh : ∀ e ∈ st.outbox, e.aggregate_id ≠ env.paymentUuid)
    (h : ProcessPayment.execute env req st = (.ok resp, st')) :
    ∃ e1 e2,
      st'.outbox.filter (fun e => e.aggregate_id = resp.payment_id) =
        [e1, e2] ∧
      e1.event_type = "PaymentCreated" ∧
      e2.event_type = "PaymentCompleted" := by
  rw [ProcessPayment.execute_not_cached env req st hnd] at h
  obtain ⟨payment, ptx, hmk, hc, hs⟩ :=
    ProcessPayment.executeFresh_ok_inv env req st resp st' h
  have hpid : payment.id = env.paymentUuid := by
    rw [Payment.mk?_ok_eq hmk]
  have hsucc :=
    ProcessPayment.executeFresh_success env req st payment ptx hmk hc hs
  rw [h] at hsucc
  obtain ⟨hresp, ⟨pl1, pl2, hout⟩, _, _, _⟩ := hsucc
  simp only at hresp hout
  cases hresp
  refine ⟨⟨st.nextEventId, "Payment", payment.id, "PaymentCreated", pl1,
      env.now, none, 0, none⟩,
    ⟨st.nextEventId + 1, "Payment", payment.id, "PaymentCompleted", pl2,
      env.now, none, 0, none⟩, ?_, rfl, rfl⟩
  rw [hout, List.filter_append]
  have hnil : st.outbox.filter
      (fun e => decide (e.aggregate_id =
        (⟨payment.id, "completed", some ptx, payment.created_at⟩ :
          PPResponse).payment_id)) = [] := by
    rw [List.filter_eq_nil_iff]
    intro e he
    simp only [decide_eq_true_eq]
    show ¬ e.aggregate_id = payment.id
    rw [hpid]
    exact hfresh e he
  rw [hnil]
  simp

/-- C4 witness: a fresh charge on an empty store yields exactly the
`PaymentCreated` / `PaymentCompleted` pair for the new payment id. -/
theorem process_payment_outbox_exactly_one_witness :
    ((⟨[], [], [], 0, [], 0, 0, []⟩ : Store).get_result "key-1" = none ∧
     (∀ e ∈ (⟨[], [], [], 0, [], 0, 0, []⟩ : Store).outbox,
        e.aggregate_id ≠ "pid-1")) ∧
    (∃ e1 e2,
      ((ProcessPayment.execute
          ⟨.ok "ptx-1", .ok (), "pid-1", "ctx-1", "ftx-1", "stripe", 7⟩
          ⟨"cust-1", ⟨100, "USD"⟩, "card", "tok-1", "key-1", []⟩
          ⟨[], [], [], 0, [], 0, 0, []⟩).2.outbox.filter
        (fun e => e.aggregate_id =
          (⟨"pid-1", "completed", some "ptx-1", 7⟩ :
            PPResponse).payment_id)) = [e1, e2] ∧
      e1.event_type = "PaymentCreated" ∧
      e2.event_type = "PaymentCompleted") :=
  ⟨⟨rfl, by simp⟩,
   process_payment_outbox_exactly_one
     ⟨.ok "ptx-1", .ok (), "pid-1", "ctx-1", "ftx-1", "stripe", 7⟩
     ⟨"cust-1", ⟨100, "USD"⟩, "card", "tok-1", "key-1", []⟩
     ⟨[], [], [], 0, [], 0, 0, []⟩
     ⟨"pid-1", "completed", some "ptx-1", 7⟩
     (ProcessPayment.execute
       ⟨.ok "ptx-1", .ok (), "pid-1", "ctx-1", "ftx-1", "stripe", 7⟩
       ⟨"cust-1", ⟨100, "USD"⟩, "card", "tok-1", "key-1", []⟩
       ⟨[], [], [], 0, [], 0, 0, []⟩).2
     rfl (by simp) (by rfl)⟩

/-- C9: when an exception strikes after `mark_completed` (here: the
idempotency `store_result` call raises), the `except` branch's `mark_failed`
itself raises `InvalidPaymentStateError`, which is what the caller receives
in place of the original error; no FAILED transaction is appended (the only
new ledger row is the COMPLETED charge) and no `PaymentFailed` outbox event
is written (the outbox gains only `PaymentCreated` and `PaymentCompleted`). -/
theorem process_payment_post_completion_failure_masked (env : PPEnv)
    (req : ProcessPaymentRequest) (st : Store) (payment : Payment)
    (ptx : String) (se : Err)
    (hnd : st.get_result req.idempotency_key = none)
    (hmk : Payment.mk? env.paymentUuid req.customer_id req.amount
      req.payment_method env.providerName .pending none Amount.zero
      env.now env.now req.metadata = .ok payment)
    (hc : env.chargeOutcome = .ok ptx)
    (hs : env.storeOutcome = .error se)
    (hftx : st.transactions.any (fun u => u.id = env.chargeTxUuid) = false) :
    (ProcessPayment.execute env req st).1 =
      .error (.invalidPaymentState
        ("Cannot mark as failed: current status is " ++
          TransactionStatus.completed.value)) ∧
    (∃ t, (ProcessPayment.execute env req st).2.transactions =
        t :: st.transactions ∧ t.transaction_type = "charge" ∧
        t.status = .completed ∧ t.error_message = none) ∧
    (∃ pl1 pl2, (ProcessPayment.execute env req st).2.outbox =
      st.outbox ++
        [⟨st.nextEventId, "Payment", payment.id, "PaymentCreated", pl1,
          env.now, none, 0, none⟩,
         ⟨st.nextEventId + 1, "Payment", payment.id, "PaymentCompleted", pl2,
          env.now, none, 0, none⟩]) := by
  rw [ProcessPayment.execute_not_cached env req st hnd]
  have hst : payment.status = .pending := by
    rw [Payment.mk?_ok_eq hmk]
  have hmap : st.transactions.map (fun u =>
      if u.id = env.chargeTxUuid then
        (⟨env.chargeTxUuid, payment.id, req.amount, "charge", .completed,
          env.providerName, some ptx, none, env.now⟩ : Transaction)
      else u) = st.transactions := by
    have h := upsert_map_of_not_any (fun u : Transaction => u.id)
      st.transactions
      ⟨env.chargeTxUuid, payment.id, req.amount, "charge", .completed,
        env.providerName, some ptx, none, env.now⟩ (by simpa using hftx)
    simpa using h
  refine ⟨?_,
    ⟨⟨env.chargeTxUuid, payment.id, req.amount, "charge", .completed,
      env.providerName, some ptx, none, env.now⟩, ?_, rfl, rfl, rfl⟩,
    ⟨[("payment_id", payment.id), ("customer_id", payment.customer_id),
      ("amount", ratStr payment.amount.value),
      ("currency", payment.amount.currency),
      ("payment_method", payment.payment_method), ("status", "pending")],
     [("payment_id", payment.id), ("customer_id", payment.customer_id),
      ("amount", ratStr payment.amount.value),
      ("currency", payment.amount.currency),
      ("provider_transaction_id", ptx), ("status", "completed")], ?_⟩⟩ <;>
    simp [ProcessPayment.executeFresh, ProcessPayment.tryBlock,
      ProcessPayment.handleFailure, hmk, hc, hs, hst, hftx, hmap,
      Payment.mark_processing, Payment.mark_completed, Payment.mark_failed,
      Store.saveTransaction, TransactionStatus.value]

/-- C9 witness: concrete run with a failing `store_result`; the caller sees
`InvalidPaymentStateError`, the ledger gains only the COMPLETED charge, and
the outbox gains only `PaymentCreated` / `PaymentCompleted`. -/
theorem process_payment_post_completion_failure_masked_witness :
    ((⟨[], [], [], 0, [], 0, 0, []⟩ : Store).get_result "key-9" = none ∧
     (⟨[], [], [], 0, [], 0, 0, []⟩ : Store).transactions.any
       (fun u => u.id = "ctx-9") = false) ∧
    ((ProcessPayment.execute
        ⟨.ok "ptx-9", .error (.storeError "redis down"), "pid-9", "ctx-9",
          "ftx-9", "stripe", 3⟩
        ⟨"cust-9", ⟨100, "USD"⟩, "card", "tok-9", "key-9", []⟩
        ⟨[], [], [], 0, [], 0, 0, []⟩).1 =
      .error (.invalidPaymentState
        ("Cannot mark as failed: current status is " ++
          TransactionStatus.completed.value)) ∧
     (∃ t, (ProcessPayment.execute
        ⟨.ok "ptx-9", .error (.storeError "redis down"), "pid-9", "ctx-9",
          "ftx-9", "stripe", 3⟩
        ⟨"cust-9", ⟨100, "USD"⟩, "card", "tok-9", "key-9", []⟩
        ⟨[], [], [], 0, [], 0, 0, []⟩).2.transactions = t :: [] ∧
       t.transaction_type = "charge" ∧ t.status = .completed ∧
       t.error_message = none) ∧
     (∃ pl1 pl2, (ProcessPayment.execute
        ⟨.ok "ptx-9", .error (.storeError "redis down"), "pid-9", "ctx-9",
          "ftx-9", "stripe", 3⟩
        ⟨"cust-9", ⟨100, "USD"⟩, "card", "tok-9", "key-9", []⟩
        ⟨[], [], [], 0, [], 0, 0, []⟩).2.outbox =
       [] ++ [⟨0, "Payment", "pid-9", "PaymentCreated", pl1, 3, none, 0,
                none⟩,
              ⟨1, "Payment", "pid-9", "PaymentCompleted", pl2, 3, none, 0,
                none⟩])) :=
  ⟨⟨rfl, rfl⟩,
   process_payment_post_completion_failure_masked
     ⟨.ok "ptx-9", .error (.storeError "redis down"), "pid-9", "ctx-9",
       "ftx-9", "stripe", 3⟩
     ⟨"cust-9", ⟨100, "USD"⟩, "card", "tok-9", "key-9", []⟩
     ⟨[], [], [], 0, [], 0, 0, []⟩
     ⟨"pid-9", "cust-9", ⟨100, "USD"⟩, "card", "stripe", .pending, none,
       ⟨0, "USD"⟩, 3, 3, []⟩
     "ptx-9" (.storeError "redis down") rfl (by rfl) rfl rfl rfl⟩

/-- C10: a key that `is_duplicate` reports as seen but whose `get_result` is
`None` does not short-circuit: the orchestrator runs the full body, creates a
fresh PENDING payment under the new uuid, writes a `PaymentCreated` outbox
event, and invokes `Gateway.charge` exactly once. -/
theorem process_payment_duplicate_without_result_proceeds (env : PPEnv)
    (req : ProcessPaymentRequest) (st : Store) (payment : Payment)
    (hd : st.is_duplicate req.idempotency_key = true)
    (hg : st.get_result req.idempotency_key = none)
    (hmk : Payment.mk? env.paymentUuid req.customer_id req.amount
      req.payment_method env.providerName .pending none Amount.zero
      env.now env.now req.metadata = .ok payment) :
    ProcessPayment.execute env req st =
      ProcessPayment.executeFresh env req st ∧
    payment.status = .pending ∧ payment.id = env.paymentUuid ∧
    (ProcessPayment.execute env req st).2.chargeCalls =
      st.chargeCalls + 1 ∧
    ∃ pl, (⟨st.nextEventId, "Payment", payment.id, "PaymentCreated", pl,
      env.now, none, 0, none⟩ : OutboxEvent) ∈
      (ProcessPayment.execute env req st).2.outbox := by
  have hfr := ProcessPayment.execute_not_cached env req st hg
  obtain ⟨hcc, hmem⟩ :=
    ProcessPayment.executeFresh_always_charges env req st payment hmk
  refine ⟨hfr, ?_, ?_, by rw [hfr]; exact hcc, by rw [hfr]; exact hmem⟩
  · rw [Payment.mk?_ok_eq hmk]
  · rw [Payment.mk?_ok_eq hmk]

/-- C10 witness: key `"key-1"` is present in the idempotency store with no
cached value; the call still charges the gateway once and writes
`PaymentCreated`. -/
theorem process_payment_duplicate_without_result_proceeds_witness :
    ((⟨[], [], [], 0, [("key-1", none)], 0, 0, []⟩ : Store).is_duplicate
        "key-1" = true ∧
     (⟨[], [], [], 0, [("key-1", none)], 0, 0, []⟩ : Store).get_result
        "key-1" = none) ∧
    (ProcessPayment.execute
        ⟨.ok "ptx-1", .ok (), "pid-1", "ctx-1", "ftx-1", "stripe", 7⟩
        ⟨"cust-1", ⟨100, "USD"⟩, "card", "tok-1", "key-1", []⟩
        ⟨[], [], [], 0, [("key-1", none)], 0, 0, []⟩ =
      ProcessPayment.executeFresh
        ⟨.ok "ptx-1", .ok (), "pid-1", "ctx-1", "ftx-1", "stripe", 7⟩
        ⟨"cust-1", ⟨100, "USD"⟩, "card", "tok-1", "key-1", []⟩
        ⟨[], [], [], 0, [("key-1", none)], 0, 0, []⟩ ∧
     (⟨"pid-1", "cust-1", ⟨100, "USD"⟩, "card", "stripe", .pending, none,
        ⟨0, "USD"⟩, 7, 7, []⟩ : Payment).status = .pending ∧
     (⟨"pid-1", "cust-1", ⟨100, "USD"⟩, "card", "stripe", .pending, none,
        ⟨0, "USD"⟩, 7, 7, []⟩ : Payment).id = "pid-1" ∧
     (ProcessPayment.execute
        ⟨.ok "ptx-1", .ok (), "pid-1", "ctx-1", "ftx-1", "stripe", 7⟩
        ⟨"cust-1", ⟨100, "USD"⟩, "card", "tok-1", "key-1", []⟩
        ⟨[], [], [], 0, [("key-1", none)], 0, 0, []⟩).2.chargeCalls =
       0 + 1 ∧
     ∃ pl, (⟨0, "Payment", "pid-1", "PaymentCreated", pl, 7, none, 0,
        none⟩ : OutboxEvent) ∈
       (ProcessPayment.execute
         ⟨.ok "ptx-1", .ok (), "pid-1", "ctx-1", "ftx-1", "stripe", 7⟩
         ⟨"cust-1", ⟨100, "USD"⟩, "card", "tok-1", "key-1", []⟩
         ⟨[], [], [], 0, [("key-1", none)], 0, 0, []⟩).2.outbox) :=
  ⟨⟨rfl, rfl⟩,
   process_payment_duplicate_without_result_proceeds
     ⟨.ok "ptx-1", .ok (), "pid-1", "ctx-1", "ftx-1", "stripe", 7⟩
     ⟨"cust-1", ⟨100, "USD"⟩, "card", "tok-1", "key-1", []⟩
     ⟨[], [], [], 0, [("key-1", none)], 0, 0, []⟩
     ⟨"pid-1", "cust-1", ⟨100, "USD"⟩, "card", "stripe", .pending, none,
       ⟨0, "USD"⟩, 7, 7, []⟩
     rfl rfl (by rfl)⟩

/-- C1 counterexample: a fully successful refund run on a COMPLETED
100 USD payment returns OK, yet the outbox is still empty afterwards — no
`PaymentRefunded` `OutboxEvent` is ever written to the outbox repository
(the `RefundPayment` use case is not even constructed with one). -/
theorem refund_payment_writes_no_outbox_event :
    (RefundPayment.execute ⟨.ok "rid-1", "fbk-1", "rtx-1", "stripe", 9⟩
        ⟨"pay-1", some ⟨30, "USD"⟩, some "key-9"⟩
        ⟨[⟨"pay-1", "cust-1", ⟨100, "USD"⟩, "card", "stripe", .completed,
          some "ptx-1", ⟨0, "USD"⟩, 0, 0, []⟩], [], [], 0, [], 0, 0,
          []⟩).1 =
      .ok ⟨"pay-1", amountStr ⟨30, "USD"⟩, "partially_refunded", "rid-1",
        9⟩ ∧
    (RefundPayment.execute ⟨.ok "rid-1", "fbk-1", "rtx-1", "stripe", 9⟩
        ⟨"pay-1", some ⟨30, "USD"⟩, some "key-9"⟩
        ⟨[⟨"pay-1", "cust-1", ⟨100, "USD"⟩, "card", "stripe", .completed,
          some "ptx-1", ⟨0, "USD"⟩, 0, 0, []⟩], [], [], 0, [], 0, 0,
          []⟩).2.outbox = [] := by
  have hrefund : (⟨"pay-1", "cust-1", ⟨100, "USD"⟩, "card", "stripe",
      .completed, some "ptx-1", ⟨0, "USD"⟩, 0, 0, []⟩ : Payment).refund
      ⟨30, "USD"⟩ 9 =
      (.ok (), ⟨"pay-1", "cust-1", ⟨100, "USD"⟩, "card", "stripe",
        .partially_refunded, some "ptx-1", ⟨30, "USD"⟩, 0, 9, []⟩) := by
    simp +decide [Payment.refund, Amount.add, Amount.mk?,
      TransactionStatus.can_refund]
  obtain ⟨h1, h2, -, -, -, -⟩ := RefundPayment.execute_success
    ⟨.ok "rid-1", "fbk-1", "rtx-1", "stripe", 9⟩
    ⟨"pay-1", some ⟨30, "USD"⟩, some "key-9"⟩
    ⟨[⟨"pay-1", "cust-1", ⟨100, "USD"⟩, "card", "stripe", .completed,
      some "ptx-1", ⟨0, "USD"⟩, 0, 0, []⟩], [], [], 0, [], 0, 0, []⟩
    ⟨"pay-1", "cust-1", ⟨100, "USD"⟩, "card", "stripe", .completed,
      some "ptx-1", ⟨0, "USD"⟩, 0, 0, []⟩
    ⟨"pay-1", "cust-1", ⟨100, "USD"⟩, "card", "stripe",
      .partially_refunded, some "ptx-1", ⟨30, "USD"⟩, 0, 9, []⟩
    "key-9" "ptx-1" "rid-1" ⟨30, "USD"⟩
    rfl (by decide) rfl (by decide) rfl (by decide) rfl (by decide) rfl
    hrefund (by decide) (by decide) (by decide)
  exact ⟨h1, h2⟩

/-- C1 (amended): a successful `RefundPayment` execution — payment found,
status refundable, provider transaction id non-falsy, gateway refund
returning, and the refund transaction passing its constructor validation —
applies `refund(amount)` to the aggregate, persists it, appends a
`Transaction(refund, COMPLETED)`, publishes `PaymentRefunded` directly
through the event-publisher port (the use case has no outbox repository and
writes nothing to the outbox), and caches the response under the idempotency
key. -/
theorem refund_payment_success_flow (env : RPEnv)
    (req : RefundPaymentRequest) (st : Store) (payment p' : Payment)
    (k ptx rid : String) (ra : Amount)
    (hkey : req.idempotency_key = some k) (hk : ¬ k = "")
    (hnd : st.get_result k = none)
    (hfind : st.payments.find? (fun p => p.id = req.payment_id) =
      some payment)
    (hamt : req.amount = some ra)
    (hcan : payment.can_be_refunded = true)
    (hptx : payment.provider_transaction_id = some ptx)
    (hptxe : ¬ ptx = "")
    (hrf : env.refundOutcome = .ok rid)
    (hrefund : payment.refund ra env.now = (.ok (), p'))
    (hrtx : ¬ env.refundTxUuid = "") (hpid : ¬ p'.id = "")
    (hprov : ¬ env.providerName = "") :
    (RefundPayment.execute env req st).1 =
      .ok ⟨p'.id, amountStr ra, p'.status.value, rid, env.now⟩ ∧
    (RefundPayment.execute env req st).2.outbox = st.outbox ∧
    p' ∈ (RefundPayment.execute env req st).2.payments ∧
    (⟨env.refundTxUuid, p'.id, ra, "refund", .completed, env.providerName,
      some rid, none, env.now⟩ : Transaction) ∈
      (RefundPayment.execute env req st).2.transactions ∧
    (RefundPayment.execute env req st).2.publisherCalls =
      st.publisherCalls ++ [("publish_payment_refunded", p'.id)] ∧
    (RefundPayment.execute env req st).2.get_result k =
      some (.refundR ⟨p'.id, amountStr ra, p'.status.value, rid,
        env.now⟩) :=
  RefundPayment.execute_success env req st payment p' k ptx rid ra hkey hk
    hnd hfind hamt hcan hptx hptxe hrf hrefund hrtx hpid hprov

/-- C1 witness: a 40 USD refund on a COMPLETED 100 USD payment runs the full
amended flow at a concrete input. -/
theorem refund_payment_success_flow_witness :
    ((⟨"pay-2", some ⟨40, "USD"⟩, some "key-8"⟩ :
        RefundPaymentRequest).idempotency_key = some "key-8" ∧
     (⟨"pay-2", "cust-2", ⟨100, "USD"⟩, "card", "stripe", .completed,
        some "ptx-2", ⟨0, "USD"⟩, 0, 0, []⟩ : Payment).refund ⟨40, "USD"⟩ 11 =
      (.ok (), ⟨"pay-2", "cust-2", ⟨100, "USD"⟩, "card", "stripe",
        .partially_refunded, some "ptx-2", ⟨40, "USD"⟩, 0, 11, []⟩)) ∧
    ((RefundPayment.execute ⟨.ok "rid-2", "fbk-2", "rtx-2", "stripe", 11⟩
        ⟨"pay-2", some ⟨40, "USD"⟩, some "key-8"⟩
        ⟨[⟨"pay-2", "cust-2", ⟨100, "USD"⟩, "card", "stripe", .completed,
          some "ptx-2", ⟨0, "USD"⟩, 0, 0, []⟩], [], [], 0, [], 0, 0,
          []⟩).1 =
      .ok ⟨"pay-2", amountStr ⟨40, "USD"⟩, "partially_refunded", "rid-2",
        11⟩ ∧
     (RefundPayment.execute ⟨.ok "rid-2", "fbk-2", "rtx-2", "stripe", 11⟩
        ⟨"pay-2", some ⟨40, "USD"⟩, some "key-8"⟩
        ⟨[⟨"pay-2", "cust-2", ⟨100, "USD"⟩, "card", "stripe", .completed,
          some "ptx-2", ⟨0, "USD"⟩, 0, 0, []⟩], [], [], 0, [], 0, 0,
          []⟩).2.outbox = [] ∧
     (⟨"pay-2", "cust-2", ⟨100, "USD"⟩, "card", "stripe",
        .partially_refunded, some "ptx-2", ⟨40, "USD"⟩, 0, 11, []⟩ :
        Payment) ∈
      (RefundPayment.execute ⟨.ok "rid-2", "fbk-2", "rtx-2", "stripe", 11⟩
        ⟨"pay-2", some ⟨40, "USD"⟩, some "key-8"⟩
        ⟨[⟨"pay-2", "cust-2", ⟨100, "USD"⟩, "card", "stripe", .completed,
          some "ptx-2", ⟨0, "USD"⟩, 0, 0, []⟩], [], [], 0, [], 0, 0,
          []⟩).2.payments ∧
     (⟨"rtx-2", "pay-2", ⟨40, "USD"⟩, "refund", .completed, "stripe",
        some "rid-2", none, 11⟩ : Transaction) ∈
      (RefundPayment.execute ⟨.ok "rid-2", "fbk-2", "rtx-2", "stripe", 11⟩
        ⟨"pay-2", some ⟨40, "USD"⟩, some "key-8"⟩
        ⟨[⟨"pay-2", "cust-2", ⟨100, "USD"⟩, "card", "stripe", .completed,
          some "ptx-2", ⟨0, "USD"⟩, 0, 0, []⟩], [], [], 0, [], 0, 0,
          []⟩).2.transactions ∧
     (RefundPayment.execute ⟨.ok "rid-2", "fbk-2", "rtx-2", "stripe", 11⟩
        ⟨"pay-2", some ⟨40, "USD"⟩, some "key-8"⟩
        ⟨[⟨"pay-2", "cust-2", ⟨100, "USD"⟩, "card", "stripe", .completed,
          some "ptx-2", ⟨0, "USD"⟩, 0, 0, []⟩], [], [], 0, [], 0, 0,
          []⟩).2.publisherCalls =
      [] ++ [("publish_payment_refunded", "pay-2")] ∧
     (RefundPayment.execute ⟨.ok "rid-2", "fbk-2", "rtx-2", "stripe", 11⟩
        ⟨"pay-2", some ⟨40, "USD"⟩, some "key-8"⟩
        ⟨[⟨"pay-2", "cust-2", ⟨100, "USD"⟩, "card", "stripe", .completed,
          some "ptx-2", ⟨0, "USD"⟩, 0, 0, []⟩], [], [], 0, [], 0, 0,
          []⟩).2.get_result "key-8" =
      some (.refundR ⟨"pay-2", amountStr ⟨40, "USD"⟩, "partially_refunded",
        "rid-2", 11⟩)) :=
  ⟨⟨rfl, by simp +decide [Payment.refund, Amount.add, Amount.mk?,
      TransactionStatus.can_refund]⟩,
   refund_payment_success_flow
     ⟨.ok "rid-2", "fbk-2", "rtx-2", "stripe", 11⟩
     ⟨"pay-2", some ⟨40, "USD"⟩, some "key-8"⟩
     ⟨[⟨"pay-2", "cust-2", ⟨100, "USD"⟩, "card", "stripe", .completed,
       some "ptx-2", ⟨0, "USD"⟩, 0, 0, []⟩], [], [], 0, [], 0, 0, []⟩
     ⟨"pay-2", "cust-2", ⟨100, "USD"⟩, "card", "stripe", .completed,
       some "ptx-2", ⟨0, "USD"⟩, 0, 0, []⟩
     ⟨"pay-2", "cust-2", ⟨100, "USD"⟩, "card", "stripe",
       .partially_refunded, some "ptx-2", ⟨40, "USD"⟩, 0, 11, []⟩
     "key-8" "ptx-2" "rid-2" ⟨40, "USD"⟩
     rfl (by decide) rfl (by decide) rfl (by decide) rfl (by decide) rfl
     (by simp +decide [Payment.refund, Amount.add, Amount.mk?,
       TransactionStatus.can_refund])
     (by decide) (by decide) (by decide)⟩

/-- C7 counterexample: the constructor accepts `refunded_amount = 20 USD` on
a `10 USD` payment — the value half of the invariant does not hold after
construction. -/
theorem payment_invariant_counterexample :
    Payment.mk? "p1" "c1" ⟨10, "USD"⟩ "card" "stripe" .completed (some "tx")
      ⟨20, "USD"⟩ 0 0 [] =
      .ok (Payment.mk "p1" "c1" ⟨10, "USD"⟩ "card" "stripe" .completed
        (some "tx") ⟨20, "USD"⟩ 0 0 []) ∧
    ¬ (Payment.mk "p1" "c1" ⟨10, "USD"⟩ "card" "stripe" .completed
        (some "tx") ⟨20, "USD"⟩ 0 0 []).Inv :=
  ⟨by rfl, by decide⟩

/-- C7 (amended): construction always establishes the currency half of the
invariant (a mismatched `refunded_amount` is replaced by zero of the
payment's currency) but does not check the value bound; the full invariant,
once it holds, is preserved by every aggregate operation, whether the
operation succeeds or raises. -/
theorem payment_invariant_preserved (id cid : String) (a : Amount)
    (pm prov : String) (stt : TransactionStatus) (ptid : Option String)
    (ra : Amount) (ca ua : ℕ) (md : List (String × String)) (q : Payment)
    (p : Payment) (tx : String) (x : Amount) (now : ℕ) :
    (Payment.mk? id cid a pm prov stt ptid ra ca ua md = .ok q →
      q.refunded_amount.currency = q.amount.currency) ∧
    (p.Inv →
      (p.mark_processing tx now).2.Inv ∧
      (p.mark_completed now).2.Inv ∧
      (p.mark_failed now).2.Inv ∧
      (p.refund x now).2.Inv) := by
  constructor
  · intro hq
    unfold Payment.mk? at hq
    split at hq
    · cases hq
    · split at hq
      · cases hq
      · split at hq
        · cases hq
        · cases hq
          by_cases hc : ra.currency = a.currency <;>
            simp [hc, Amount.zero]
  · intro hInv
    refine ⟨?_, ?_, ?_, ?_⟩
    · unfold Payment.mark_processing
      split
      · exact hInv
      · exact hInv
    · unfold Payment.mark_completed
      split
      · exact hInv
      · exact hInv
    · unfold Payment.mark_failed
      split
      · exact hInv
      · exact hInv
    · unfold Payment.refund
      split
      · exact hInv
      · split
        · exact hInv
        · rename_i total heq
          split
          · exact hInv
          · rename_i hle
            have ht := Amount.add_ok heq
            subst ht
            obtain ⟨hcur, hval⟩ := hInv
            have hsum : p.refunded_amount.value + x.value ≤ p.amount.value :=
              not_lt.mp hle
            constructor
            · dsimp only
              split <;> simp [hcur]
            · dsimp only
              split <;> simpa using hsum

/-- C7 witness: a construction with an EUR refunded amount on a USD payment
yields a USD-zero refunded amount, and the invariant is preserved across a
legal transition. -/
theorem payment_invariant_preserved_witness :
    (Payment.mk "p3" "c1" ⟨10, "USD"⟩ "card" "stripe" .pending none
        (Amount.zero "USD") 0 0 []).refunded_amount.currency =
      (Payment.mk "p3" "c1" ⟨10, "USD"⟩ "card" "stripe" .pending none
        (Amount.zero "USD") 0 0 []).amount.currency ∧
    ((Payment.mk "p3" "c1" ⟨10, "USD"⟩ "card" "stripe" .pending none
        (Amount.zero "USD") 0 0 []).mark_processing "t9" 4).2.Inv := by
  have h := payment_invariant_preserved "p3" "c1" ⟨10, "USD"⟩ "card" "stripe"
    .pending none ⟨0, "EUR"⟩ 0 0 []
    (Payment.mk "p3" "c1" ⟨10, "USD"⟩ "card" "stripe" .pending none
      (Amount.zero "USD") 0 0 [])
    (Payment.mk "p3" "c1" ⟨10, "USD"⟩ "card" "stripe" .pending none
      (Amount.zero "USD") 0 0 []) "t9" ⟨1, "USD"⟩ 4
  exact ⟨h.1 (by rfl), (h.2 (by decide)).1⟩

/-- C2 counterexample: one unpublished outbox event; a relay tick reports it
published, sets `published_at`, and leaves `attempts = 0`, `last_error`
empty — while no `publish_event` call to the event bus was ever made
(`publisherCalls` stays empty; the relay never touches the bus port). -/
theorem relay_publishes_without_bus_counterexample :
    (OutboxPublisherService.publish_pending_events
      ⟨[], [], [⟨0, "Payment", "pay1", "PaymentCompleted", [], 0, none, 0,
        none⟩], 1, [], 0, 0, []⟩ 100 5).1 = 1 ∧
    (OutboxPublisherService.publish_pending_events
      ⟨[], [], [⟨0, "Payment", "pay1", "PaymentCompleted", [], 0, none, 0,
        none⟩], 1, [], 0, 0, []⟩ 100 5).2.outbox =
      [⟨0, "Payment", "pay1", "PaymentCompleted", [], 0, some 5, 0, none⟩] ∧
    (OutboxPublisherService.publish_pending_events
      ⟨[], [], [⟨0, "Payment", "pay1", "PaymentCompleted", [], 0, none, 0,
        none⟩], 1, [], 0, 0, []⟩ 100 5).2.publisherCalls = [] := by
  decide

/-- C2 (amended): for every event the relay processes, it marks the event
published (`published_at := now`) without invoking `publish_event` on the
event bus at all; `attempts` and `last_error` are never touched, because the
failure branch can only be reached if the repository's own `mark_published`
raised. -/
theorem relay_marks_published_without_bus (st : Store) (event_id now : ℕ)
    (e : OutboxEvent)
    (he : (st.get_unpublished 1000).find? (·.id = event_id) = some e) :
    (OutboxPublisherService.publishEventWithRetry st event_id
        now).publisherCalls = st.publisherCalls ∧
    (OutboxPublisherService.publishEventWithRetry st event_id now).outbox =
      st.outbox.map (fun ev =>
        if ev.id = event_id then { ev with published_at := some now }
        else ev) := by
  have hmem : e ∈ st.get_unpublished 1000 := List.mem_of_find?_eq_some he
  have hpub : e.published_at = none := by
    have h1 : e ∈ st.outbox.filter (fun ev => ev.published_at = none) :=
      List.mem_of_mem_take (by simpa [Store.get_unpublished] using hmem)
    simpa using List.of_mem_filter h1
  unfold OutboxPublisherService.publishEventWithRetry
  simp only [he]
  rw [if_neg (by simp [hpub])]
  refine ⟨rfl, ?_⟩
  show ((st.outbox.map _).map _) = _
  rw [List.map_map]
  have hff : ((fun ev => if ev.id = event_id then
        { ev with published_at := some now } else ev) ∘
      (fun ev => if ev.id = event_id then
        { ev with published_at := some now } else ev)) =
      (fun ev : OutboxEvent => if ev.id = event_id then
        { ev with published_at := some now } else ev) := by
    funext ev
    by_cases h : ev.id = event_id <;> simp [h]
  rw [hff]

/-- C2 amended-claim witness on the one-event store. -/
theorem relay_marks_published_without_bus_witness :
    ((⟨[], [], [⟨0, "Payment", "pay1", "PaymentCompleted", [], 0, none, 0,
        none⟩], 1, [], 0, 0, []⟩ : Store).get_unpublished 1000).find?
      (·.id = 0) = some ⟨0, "Payment", "pay1", "PaymentCompleted", [], 0,
        none, 0, none⟩ ∧
    ((OutboxPublisherService.publishEventWithRetry
      ⟨[], [], [⟨0, "Payment", "pay1", "PaymentCompleted", [], 0, none, 0,
        none⟩], 1, [], 0, 0, []⟩ 0 5).publisherCalls =
      (⟨[], [], [⟨0, "Payment", "pay1", "PaymentCompleted", [], 0, none, 0,
        none⟩], 1, [], 0, 0, []⟩ : Store).publisherCalls ∧
     (OutboxPublisherService.publishEventWithRetry
      ⟨[], [], [⟨0, "Payment", "pay1", "PaymentCompleted", [], 0, none, 0,
        none⟩], 1, [], 0, 0, []⟩ 0 5).outbox =
      (⟨[], [], [⟨0, "Payment", "pay1", "PaymentCompleted", [], 0, none, 0,
        none⟩], 1, [], 0, 0, []⟩ : Store).outbox.map (fun ev =>
          if ev.id = 0 then { ev with published_at := some 5 } else ev)) :=
  ⟨by decide,
   relay_marks_published_without_bus _ 0 5
     ⟨0, "Payment", "pay1", "PaymentCompleted", [], 0, none, 0, none⟩
     (by decide)⟩

end ArchHex
